import Mathlib

/-!
Verification of the cuteataxx match engine against its specification.

The development shallowly embeds the game-play driver of
`src/core/play.cpp` (whose game loop is textually repeated in
`src/cli/match/play.cpp`), the PGN header selection of
`src/cli/match/play.cpp`, and the round-robin schedule generator tested by
`tests/core/tournament/roundrobin.cpp`.

The Ataxx rules themselves live in the external libataxx library, so the
position is kept abstract: a `GameModel` packages the libataxx operations
the driver calls (`get_turn`, `is_gameover`, `is_legal_move`, `makemove`,
`get_result`, piece counts). Engine subprocesses are replaced by a script
of events: each `go()` call consumes one event, which is either a reply
(the raw move token plus the measured elapsed milliseconds) or a crash
(any exception thrown while talking to the engine).
-/

namespace Cuteataxx

/-- libataxx Side. -/
inductive Side where
  | Black
  | White
deriving DecidableEq, Repr

/-- The libataxx `operator!` on a side: the opponent. -/
def Side.flip : Side → Side
  | .Black => .White
  | .White => .Black

/-- libataxx Result. -/
inductive Result where
  | BlackWin
  | WhiteWin
  | Draw
  | None
deriving DecidableEq, Repr

/-- ResultReason, `src/cli/match/play.cpp` lines 15-25. -/
inductive ResultReason where
  | Normal
  | OutOfTime
  | MaterialImbalance
  | EasyFill
  | Gamelength
  | IllegalMove
  | EngineCrash
  | None
deriving DecidableEq, Repr

/-- `make_win_for`, `src/core/play.cpp` lines 11-13. -/
def make_win_for (s : Side) : Result :=
  if s = Side.Black then Result.BlackWin else Result.WhiteWin

/-- `SearchSettings::Type` (settings.hpp is summarised by the spec data
model: Movetime, Time, Depth, Nodes, Infinite). -/
inductive SearchType where
  | Movetime
  | Time
  | Depth
  | Nodes
  | Infinite
deriving DecidableEq, Repr

/-- SearchSettings: the time-control fields the driver reads. Milliseconds
are embedded as `Int` because the Fischer clock may go negative, exactly as
the C++ `int` fields do in the ranges the driver exercises. -/
structure SearchSettings where
  stype : SearchType
  movetime : Int
  btime : Int
  wtime : Int
  binc : Int
  winc : Int
deriving DecidableEq, Repr

/-- The material adjudication thresholds `{pieces, plies}` of
AdjudicationSettings. -/
structure MaterialParams where
  pieces : Nat
  plies : Nat
deriving DecidableEq, Repr

/-- AdjudicationSettings as the driver reads it: optional material and
gamelength thresholds, the easyfill switch, and the timeout buffer. -/
structure AdjudicationSettings where
  material : Option MaterialParams
  easyfill : Bool
  gamelength : Option Nat
  timeout_buffer : Int
deriving DecidableEq, Repr

/-- The libataxx position operations and the inbound-token parsing the
driver uses, abstracted over a position type and a move type. libataxx and
`parse_move` are external to the embedded sources, so they are model
parameters; every claim below concerns only how the driver combines them.
`can_adjudicate_easyfill` (declared in ataxx/adjudicate.hpp, body not among
the sources) is likewise a parameter: the spec describes it as a pure
predicate on the position. `halfmoves_played` is the count of half-moves
the position has recorded, which the adjudication predicates consult. -/
structure GameModel (Pos Move : Type) where
  is_gameover : Pos → Bool
  get_turn : Pos → Side
  is_legal_move : Pos → Move → Bool
  makemove : Pos → Move → Pos
  get_result : Pos → Result
  black_count : Pos → Nat
  white_count : Pos → Nat
  halfmoves_played : Pos → Nat
  parse_move : String → Option Move
  can_adjudicate_easyfill : Pos → Bool

/-- Modelled from the spec: `can_adjudicate_material` lives in
ataxx/adjudicate.cpp, which is not among the sources. The spec defines it
as true iff the absolute piece-count difference is at least `pieces` and at
least `plies` half-moves have been played. -/
def can_adjudicate_material {Pos Move : Type} (M : GameModel Pos Move) (pos : Pos)
    (mp : MaterialParams) : Bool :=
  (mp.pieces ≤ ((M.black_count pos : Int) - (M.white_count pos : Int)).natAbs) &&
    (mp.plies ≤ M.halfmoves_played pos)

/-- Modelled from the spec: `can_adjudicate_gamelength` lives in
ataxx/adjudicate.cpp, which is not among the sources. The spec defines it
as true iff at least `n` half-moves have been played; the result is a
draw. -/
def can_adjudicate_gamelength {Pos Move : Type} (M : GameModel Pos Move) (pos : Pos)
    (n : Nat) : Bool :=
  n ≤ M.halfmoves_played pos

/-- One `engine->go(...)` interaction: either the engine replies with a raw
token after `elapsed` measured milliseconds, or some engine call throws. -/
inductive EngineEvent where
  | reply (movestr : String) (elapsed : Int)
  | crash
deriving DecidableEq, Repr

/-- The state the game loop threads between iterations: the position, the
mutable copy of the clock (`game_clock.btime` / `game_clock.wtime`), the
`ply_count` local and the accumulated history. -/
structure LoopState (Pos Move : Type) where
  pos : Pos
  btime : Int
  wtime : Int
  ply_count : Nat
  history : List (Move × Int)
deriving Repr

/-- The outcome record filled by the driver. The C++ `GameThingy` carries
result, reason, startpos, endpos and history; `ply_count` embeds the
`ply_count` local (the cli driver publishes it as the PlyCount PGN header),
`last_movestr` the cli `movestr` local (used for the Adjudicated header),
and `printed` the lines the driver writes to standard output. -/
structure GameThingy (Pos Move : Type) where
  result : Result
  reason : ResultReason
  startpos : Pos
  endpos : Pos
  history : List (Move × Int)
  ply_count : Nat
  last_movestr : String
  printed : List String
deriving Repr

variable {Pos Move : Type}

/-- The constant inputs of one `play` call: the game model, the
adjudication settings, the initial `SearchSettings` and the two engine
names (`game.engine1.name`, `game.engine2.name`). -/
structure DriverCtx (Pos Move : Type) where
  M : GameModel Pos Move
  adjudication : AdjudicationSettings
  tc : SearchSettings
  engine1_name : String
  engine2_name : String

/-- The engine name the illegal-move message reports: engine1 plays Black,
engine2 plays White (`src/core/play.cpp` line 97). -/
def engine_name_of (ctx : DriverCtx Pos Move) (s : Side) : String :=
  if s = Side.Black then ctx.engine1_name else ctx.engine2_name

/-- The line `std::cout` receives on an illegal move,
`src/core/play.cpp` lines 96-98. -/
def illegal_move_line (movestr name : String) : String :=
  "Illegal move \"" ++ movestr ++ "\" played by " ++ name ++ "\n\n"

/-- The condition `adjudication.material && can_adjudicate_material(pos,
*adjudication.material)` of `src/core/play.cpp` line 44. -/
def material_fires (ctx : DriverCtx Pos Move) (pos : Pos) : Bool :=
  match ctx.adjudication.material with
  | some mp => can_adjudicate_material ctx.M pos mp
  | none => false

/-- The condition `adjudication.easyfill && can_adjudicate_easyfill(pos)`
of `src/core/play.cpp` line 52. -/
def easyfill_fires (ctx : DriverCtx Pos Move) (pos : Pos) : Bool :=
  ctx.adjudication.easyfill && ctx.M.can_adjudicate_easyfill pos

/-- The condition `adjudication.gamelength && can_adjudicate_gamelength(pos,
*adjudication.gamelength)` of `src/core/play.cpp` line 59. -/
def gamelength_fires (ctx : DriverCtx Pos Move) (pos : Pos) : Bool :=
  match ctx.adjudication.gamelength with
  | some n => can_adjudicate_gamelength ctx.M pos n
  | none => false

/-- The checks at the top of every loop iteration, `src/core/play.cpp`
lines 42-63: the `while (!pos.is_gameover())` condition followed by the
three adjudication rules in source order. `some (r, rsn)` means the loop
ends here with result `r` and reason `rsn`; the game-over exit is encoded
as the pair `(Result.None, ResultReason.None)` because the C++ driver
leaves both variables at their initial values on that path and fixes the
result up after the loop. -/
def preCheck (ctx : DriverCtx Pos Move) (pos : Pos) : Option (Result × ResultReason) :=
  if ctx.M.is_gameover pos then
    some (Result.None, ResultReason.None)
  else if material_fires ctx pos then
    some (make_win_for (ctx.M.get_turn pos), ResultReason.MaterialImbalance)
  else if easyfill_fires ctx pos then
    some (make_win_for (ctx.M.get_turn pos).flip, ResultReason.EasyFill)
  else if gamelength_fires ctx pos then
    some (Result.Draw, ResultReason.Gamelength)
  else
    none

/-- The `Update clock` block, `src/core/play.cpp` lines 107-114: in Time
mode subtract the elapsed milliseconds from the moving side. -/
def subtract_elapsed (tc : SearchSettings) (turn : Side) (e : Int)
    (st : LoopState Pos Move) : LoopState Pos Move :=
  if tc.stype = SearchType.Time then
    (if turn = Side.Black then { st with btime := st.btime - e }
     else { st with wtime := st.wtime - e })
  else st

/-- The `Increments` block, `src/core/play.cpp` lines 135-142: in Time mode
add the moving side's increment. -/
def add_increment (tc : SearchSettings) (turn : Side) (st : LoopState Pos Move) :
    LoopState Pos Move :=
  if tc.stype = SearchType.Time then
    (if turn = Side.Black then { st with btime := st.btime + tc.binc }
     else { st with wtime := st.wtime + tc.winc })
  else st

@[simp] lemma subtract_elapsed_pos (tc : SearchSettings) (turn : Side) (e : Int)
    (st : LoopState Pos Move) : (subtract_elapsed tc turn e st).pos = st.pos := by
  unfold subtract_elapsed
  split
  · split <;> rfl
  · rfl

@[simp] lemma subtract_elapsed_history (tc : SearchSettings) (turn : Side) (e : Int)
    (st : LoopState Pos Move) : (subtract_elapsed tc turn e st).history = st.history := by
  unfold subtract_elapsed
  split
  · split <;> rfl
  · rfl

@[simp] lemma subtract_elapsed_ply (tc : SearchSettings) (turn : Side) (e : Int)
    (st : LoopState Pos Move) : (subtract_elapsed tc turn e st).ply_count = st.ply_count := by
  unfold subtract_elapsed
  split
  · split <;> rfl
  · rfl

@[simp] lemma add_increment_pos (tc : SearchSettings) (turn : Side)
    (st : LoopState Pos Move) : (add_increment tc turn st).pos = st.pos := by
  unfold add_increment
  split
  · split <;> rfl
  · rfl

@[simp] lemma add_increment_history (tc : SearchSettings) (turn : Side)
    (st : LoopState Pos Move) : (add_increment tc turn st).history = st.history := by
  unfold add_increment
  split
  · split <;> rfl
  · rfl

@[simp] lemma add_increment_ply (tc : SearchSettings) (turn : Side)
    (st : LoopState Pos Move) : (add_increment tc turn st).ply_count = st.ply_count := by
  unfold add_increment
  split
  · split <;> rfl
  · rfl

/-- What one loop iteration does after `go()` returned: halt the game with
a result, reason, the state at the break and any printed lines, or
continue with the next state. -/
inductive IterOut (Pos Move : Type) where
  | halt (r : Result) (rsn : ResultReason) (st : LoopState Pos Move) (printed : List String)
  | cont (st : LoopState Pos Move)

/-- The body of one loop iteration after the engine replied with token `ms`
in `e` milliseconds: `src/core/play.cpp` lines 83-144. Parse the token and
check legality (lines 85-100); append to the history and bump `ply_count`
(lines 102-105); in Time mode subtract the elapsed time from the moving
side (lines 107-114); check the movetime budget or the remaining times
(lines 116-133); in Time mode add the moving side's increment (lines
135-142); finally make the move on the board (line 144). -/
def playIter (ctx : DriverCtx Pos Move) (st : LoopState Pos Move) (ms : String) (e : Int) :
    IterOut Pos Move :=
  match ctx.M.parse_move ms with
  | none =>
      .halt (make_win_for (ctx.M.get_turn st.pos).flip) ResultReason.IllegalMove st
        [illegal_move_line ms (engine_name_of ctx (ctx.M.get_turn st.pos))]
  | some mv =>
      if ctx.M.is_legal_move st.pos mv = false then
        .halt (make_win_for (ctx.M.get_turn st.pos).flip) ResultReason.IllegalMove st
          [illegal_move_line ms (engine_name_of ctx (ctx.M.get_turn st.pos))]
      else
        let st1 : LoopState Pos Move :=
          { st with ply_count := st.ply_count + 1, history := st.history ++ [(mv, e)] }
        let st2 : LoopState Pos Move := subtract_elapsed ctx.tc (ctx.M.get_turn st.pos) e st1
        if ctx.tc.stype = SearchType.Movetime ∧
            e > ctx.tc.movetime + ctx.adjudication.timeout_buffer then
          .halt (make_win_for (ctx.M.get_turn st.pos).flip) ResultReason.OutOfTime st2 []
        else if ctx.tc.stype = SearchType.Time ∧ st2.btime ≤ 0 then
          .halt Result.WhiteWin ResultReason.OutOfTime st2 []
        else if ctx.tc.stype = SearchType.Time ∧ st2.wtime ≤ 0 then
          .halt Result.BlackWin ResultReason.OutOfTime st2 []
        else
          let st3 : LoopState Pos Move := add_increment ctx.tc (ctx.M.get_turn st.pos) st2
          .cont { st3 with pos := ctx.M.makemove st3.pos mv }

/-- Assemble the returned record at a loop exit: `src/core/play.cpp` lines
151-158. A result still equal to `None` (only the game-over exit) is
replaced by `pos.get_result()`; the end position is the position at the
exit. -/
def mkExit (ctx : DriverCtx Pos Move) (sp : Pos) (st : LoopState Pos Move)
    (r : Result) (rsn : ResultReason) (last : String) (pr : List String) :
    GameThingy Pos Move :=
  { result := if r = Result.None then ctx.M.get_result st.pos else r
    reason := rsn
    startpos := sp
    endpos := st.pos
    history := st.history
    ply_count := st.ply_count
    last_movestr := last
    printed := pr }

/-- The game loop, `src/core/play.cpp` lines 42-145. Each iteration first
runs `preCheck`; if the game goes on, one engine event is consumed: a
crash is the catch-all of lines 146-149 (loss for the side to move), a
reply goes through `playIter`. `none` models the driver blocking forever
in `go()` because the scripted engine has no further reply. -/
def playLoop (ctx : DriverCtx Pos Move) (sp : Pos) :
    List EngineEvent → LoopState Pos Move → String → Option (GameThingy Pos Move)
  | [], st, last =>
    match preCheck ctx st.pos with
    | some (r, rsn) => some (mkExit ctx sp st r rsn last [])
    | none => none
  | .crash :: _, st, last =>
    match preCheck ctx st.pos with
    | some (r, rsn) => some (mkExit ctx sp st r rsn last [])
    | none =>
        some (mkExit ctx sp st (make_win_for (ctx.M.get_turn st.pos).flip)
          ResultReason.EngineCrash last [])
  | .reply ms e :: rest, st, last =>
    match preCheck ctx st.pos with
    | some (r, rsn) => some (mkExit ctx sp st r rsn last [])
    | none =>
        match playIter ctx st ms e with
        | .halt r rsn st' pr => some (mkExit ctx sp st' r rsn ms pr)
        | .cont st' => playLoop ctx sp rest st' ms

/-- Every loop entry begins with `preCheck`: when it fires, the loop ends
there with its result and reason, whatever engine events would follow. -/
lemma playLoop_precheck_halt (ctx : DriverCtx Pos Move) (sp : Pos)
    (script : List EngineEvent) (st : LoopState Pos Move) (last : String)
    {r : Result} {rsn : ResultReason}
    (h : preCheck ctx st.pos = some (r, rsn)) :
    playLoop ctx sp script st last = some (mkExit ctx sp st r rsn last []) := by
  cases script with
  | nil => rw [playLoop, h]
  | cons ev rest => cases ev <;> rw [playLoop, h]

/-- `play`, `src/core/play.cpp` lines 18-159. The clock starts as a copy of
the configured `SearchSettings`; `ply_count` starts at 0 with an empty
history. `handshake_ok = false` models an exception from the initial
`newgame()` / `isready()` calls (lines 35-39), which the catch-all turns
into an engine-crash loss for the side to move before any move is made. -/
def play (ctx : DriverCtx Pos Move) (sp : Pos) (handshake_ok : Bool)
    (script : List EngineEvent) : Option (GameThingy Pos Move) :=
  let st0 : LoopState Pos Move :=
    { pos := sp, btime := ctx.tc.btime, wtime := ctx.tc.wtime, ply_count := 0, history := [] }
  if handshake_ok then
    playLoop ctx sp script st0 ""
  else
    some (mkExit ctx sp st0 (make_win_for (ctx.M.get_turn sp).flip)
      ResultReason.EngineCrash "" [])

/-- The `Adjudicated` PGN header value chosen by reason,
`src/cli/match/play.cpp` lines 222-242; `none` when no such header is
added (the `Normal` case and the default case). -/
def adjudicated_header (rsn : ResultReason) (movestr : String) : Option String :=
  match rsn with
  | .Normal => none
  | .OutOfTime => some "Out of time"
  | .MaterialImbalance => some "Material imbalance"
  | .EasyFill => some "Easy fill"
  | .Gamelength => some ("Max game length reached")
  | .IllegalMove => some ("Illegal move " ++ movestr)
  | _ => none

/-- Replay a history on a position with `makemove`: the position the board
reaches after the listed moves. -/
def applyMoves (M : GameModel Pos Move) (p : Pos) : List (Move × Int) → Pos
  | [] => p
  | (mv, _) :: rest => applyMoves M (M.makemove p mv) rest

/-! ### Concrete instances used by witnesses and counterexamples -/

/-- Toy position model: a position is the number of plies played, Black
moves on even plies, every move is legal, every token except "xyz" parses,
and the board position never reaches a natural game end. -/
def altModel : GameModel Nat Unit :=
  { is_gameover := fun _ => false
    get_turn := fun n => if n % 2 = 0 then Side.Black else Side.White
    is_legal_move := fun _ _ => true
    makemove := fun n _ => n + 1
    get_result := fun _ => Result.None
    black_count := fun _ => 2
    white_count := fun _ => 2
    halfmoves_played := fun n => n
    parse_move := fun s => if s = "xyz" then none else some ()
    can_adjudicate_easyfill := fun _ => false }

/-- Adjudication settings with every rule disabled. -/
def noAdj (buf : Int) : AdjudicationSettings :=
  { material := none, easyfill := false, gamelength := none, timeout_buffer := buf }

/-- Movetime-mode settings with a given per-move budget. -/
def movetimeTC (mt : Int) : SearchSettings :=
  { stype := SearchType.Movetime, movetime := mt, btime := 0, wtime := 0, binc := 0, winc := 0 }

/-- Time-mode (Fischer) settings. -/
def timeTC (bt wt bi wi : Int) : SearchSettings :=
  { stype := SearchType.Time, movetime := 0, btime := bt, wtime := wt, binc := bi, winc := wi }

/-- Movetime 100 ms with timeout buffer 50 ms, no adjudication. -/
def ctxMT50 : DriverCtx Nat Unit :=
  { M := altModel, adjudication := noAdj 50, tc := movetimeTC 100,
    engine1_name := "engine-black", engine2_name := "engine-white" }

/-- Movetime 100 ms with timeout buffer 200 ms, no adjudication. -/
def ctxMT200 : DriverCtx Nat Unit :=
  { M := altModel, adjudication := noAdj 200, tc := movetimeTC 100,
    engine1_name := "engine-black", engine2_name := "engine-white" }

/-- Time mode, btime = wtime = 1000 ms, no increments, no adjudication. -/
def ctxTime : DriverCtx Nat Unit :=
  { M := altModel, adjudication := noAdj 0, tc := timeTC 1000 1000 0 0,
    engine1_name := "engine-black", engine2_name := "engine-white" }

/-- Three Black moves of 400, 400 and 300 ms with fast White replies in
between: the scenario of spec section 8, item 6. -/
def blackFlagScript : List EngineEvent :=
  [EngineEvent.reply "a1" 400, EngineEvent.reply "b1" 1, EngineEvent.reply "a1" 400,
   EngineEvent.reply "b1" 1, EngineEvent.reply "a1" 300]

/-- Toy model where White is to move while Black leads 10-2 on material. -/
def whiteBehindModel : GameModel Nat Unit :=
  { is_gameover := fun _ => false
    get_turn := fun _ => Side.White
    is_legal_move := fun _ _ => true
    makemove := fun n _ => n + 1
    get_result := fun _ => Result.None
    black_count := fun _ => 10
    white_count := fun _ => 2
    halfmoves_played := fun _ => 100
    parse_move := fun _ => some ()
    can_adjudicate_easyfill := fun _ => false }

/-- Material adjudication (5 pieces, 0 plies) over `whiteBehindModel`. -/
def ctxC1 : DriverCtx Nat Unit :=
  { M := whiteBehindModel,
    adjudication := { material := some { pieces := 5, plies := 0 }, easyfill := false,
                      gamelength := none, timeout_buffer := 0 },
    tc := movetimeTC 100,
    engine1_name := "engine-black", engine2_name := "engine-white" }

/-- Toy model of a position that is already game over with a Black win on
the board. -/
def finishedModel : GameModel Nat Unit :=
  { is_gameover := fun _ => true
    get_turn := fun _ => Side.White
    is_legal_move := fun _ _ => true
    makemove := fun n _ => n + 1
    get_result := fun _ => Result.BlackWin
    black_count := fun _ => 30
    white_count := fun _ => 10
    halfmoves_played := fun _ => 60
    parse_move := fun _ => some ()
    can_adjudicate_easyfill := fun _ => false }

/-- Driver context over `finishedModel` with no adjudication. -/
def ctxC3 : DriverCtx Nat Unit :=
  { M := finishedModel, adjudication := noAdj 0, tc := movetimeTC 100,
    engine1_name := "engine-black", engine2_name := "engine-white" }

/-- Toy model where Black is to move, Black leads 9-1, 500 half-moves have
been played and the easy-fill predicate holds. -/
def adjModel : GameModel Nat Unit :=
  { is_gameover := fun _ => false
    get_turn := fun _ => Side.Black
    is_legal_move := fun _ _ => true
    makemove := fun n _ => n + 1
    get_result := fun _ => Result.None
    black_count := fun _ => 9
    white_count := fun _ => 1
    halfmoves_played := fun _ => 500
    parse_move := fun _ => some ()
    can_adjudicate_easyfill := fun _ => true }

/-- All three adjudication rules armed and firing over `adjModel`. -/
def ctxAdjAll : DriverCtx Nat Unit :=
  { M := adjModel,
    adjudication := { material := some { pieces := 3, plies := 0 }, easyfill := true,
                      gamelength := some 100, timeout_buffer := 0 },
    tc := movetimeTC 100,
    engine1_name := "engine-black", engine2_name := "engine-white" }

/-- Easy-fill and gamelength armed (material off) over `adjModel`. -/
def ctxAdjEasy : DriverCtx Nat Unit :=
  { M := adjModel,
    adjudication := { material := none, easyfill := true,
                      gamelength := some 100, timeout_buffer := 0 },
    tc := movetimeTC 100,
    engine1_name := "engine-black", engine2_name := "engine-white" }

/-- Only gamelength armed over `adjModel`. -/
def ctxAdjLen : DriverCtx Nat Unit :=
  { M := adjModel,
    adjudication := { material := none, easyfill := false,
                      gamelength := some 100, timeout_buffer := 0 },
    tc := movetimeTC 100,
    engine1_name := "engine-black", engine2_name := "engine-white" }

/-- A throwaway outcome record used as the default of `Option.getD`. -/
def dummyThingy : GameThingy Nat Unit :=
  { result := Result.None, reason := ResultReason.None, startpos := 0, endpos := 0,
    history := [], ply_count := 0, last_movestr := "", printed := [] }

/-! ### Round-robin schedule generator

The generator itself (core/tournament/roundrobin.hpp) is not among the
sources; only its unit tests are (tests/core/tournament/roundrobin.cpp).
The definitions below are therefore modelled from the spec, section 4.5,
and checked against the constructions the claims use. -/

/-- A schedule entry `{game_id, opening_id, player1_idx, player2_idx}`. -/
structure GameInfo where
  game_id : Nat
  opening_id : Nat
  player1_idx : Nat
  player2_idx : Nat
deriving DecidableEq, Repr

/-- Modelled from the spec: all unordered pairings `(i, j)` with `i < j`
in lexicographic order of `(i, j)`. -/
def rr_pairs (num_players : Nat) : List (Nat × Nat) :=
  (List.range num_players).flatMap fun i =>
    (List.range num_players).filterMap fun j => if i < j then some (i, j) else none

/-- Modelled from the spec: the opening index for the k-th game of a
pairing, `k * num_openings / num_games` rounded down when `num_games ≥
num_openings`, else `k`, clamped to `[0, num_openings)`. -/
def rr_opening (num_games num_openings k : Nat) : Nat :=
  min (if num_openings ≤ num_games then k * num_openings / num_games else k)
    (num_openings - 1)

/-- Modelled from the spec: `expected()` is the number of games in one full
cycle, `num_pairs * num_openings` in both repeat modes. -/
def rr_expected (num_players _num_games num_openings : Nat) (_rep : Bool) : Nat :=
  (rr_pairs num_players).length * num_openings

/-- Modelled from the spec: the m-th `(opening, player1, player2)` entry of
one cycle. Each pairing contributes its games in order; with repeat set,
each game is immediately followed by its colour-swapped twin with the same
opening. -/
def rr_entry (num_players num_games num_openings : Nat) (rep : Bool) (m : Nat) :
    Nat × Nat × Nat :=
  if rep then
    let u := m / 2
    let pr := (rr_pairs num_players).getD (u / num_games) (0, 0)
    let op := rr_opening num_games num_openings (u % num_games)
    if m % 2 = 1 then (op, pr.2, pr.1) else (op, pr.1, pr.2)
  else
    let pr := (rr_pairs num_players).getD (m / num_games) (0, 0)
    (rr_opening num_games num_openings (m % num_games), pr.1, pr.2)

/-- Modelled from the spec: the value the n-th `next()` call returns. The
spec states the sequence is a pure function of the call index: `game_id` is
the monotone counter `n` itself, never reset, while the remaining fields
cycle with period `expected()`. -/
def rr_next (num_players num_games num_openings : Nat) (rep : Bool) (n : Nat) : GameInfo :=
  let t := rr_entry num_players num_games num_openings rep
    (n % rr_expected num_players num_games num_openings rep)
  { game_id := n, opening_id := t.1, player1_idx := t.2.1, player2_idx := t.2.2 }

/-! ### Theorems -/

/-- C1 (amended): when the material-imbalance rule triggers at the top of a
loop iteration, the driver records a win for the side to move at that
moment (which is the side with more pieces only when that side leads),
without consuming any further engine reply. -/
theorem material_adjudication_wins_side_to_move (ctx : DriverCtx Pos Move) (sp : Pos)
    (script : List EngineEvent) (st : LoopState Pos Move) (last : String)
    (hgo : ctx.M.is_gameover st.pos = false)
    (hmat : material_fires ctx st.pos = true) :
    playLoop ctx sp script st last =
      some (mkExit ctx sp st (make_win_for (ctx.M.get_turn st.pos))
        ResultReason.MaterialImbalance last []) := by
  apply playLoop_precheck_halt
  unfold preCheck
  rw [hgo, hmat]
  simp

/-- Witness for C1: the amended theorem applied at `ctxC1`, where the
material rule fires with White to move. -/
theorem material_adjudication_wins_side_to_move_witness :
    playLoop ctxC1 0 []
        { pos := 0, btime := 0, wtime := 0, ply_count := 0, history := [] } "" =
      some (mkExit ctxC1 0
        { pos := 0, btime := 0, wtime := 0, ply_count := 0, history := [] }
        (make_win_for (ctxC1.M.get_turn 0)) ResultReason.MaterialImbalance "" []) :=
  material_adjudication_wins_side_to_move ctxC1 0 [] _ "" (by decide) (by decide)

/-- Counterexample for C1 as stated: over `ctxC1`, Black has 10 pieces to
the 2 of White, the material rule triggers, yet the recorded result is a
win for White (the side to move), not for the side with more pieces. -/
theorem material_adjudication_more_pieces_counterexample :
    (play ctxC1 0 true []).map (fun g => (g.result, g.reason)) =
      some (Result.WhiteWin, ResultReason.MaterialImbalance) ∧
    ctxC1.M.white_count 0 < ctxC1.M.black_count 0 ∧
    ¬ (play ctxC1 0 true []).map (fun g => g.result) = some Result.BlackWin := by
  refine ⟨by decide, by decide, by decide⟩

/-- The loop state at the start of a game over the toy models: position 0,
clocks 0, no moves yet. -/
def adjSt0 : LoopState Nat Unit :=
  { pos := 0, btime := 0, wtime := 0, ply_count := 0, history := [] }

/-- C6: with the game not over, the three adjudication rules are consulted
in the fixed order material, easy-fill, gamelength before any engine reply
is consumed (the conclusion holds for every script): the first rule that
fires fixes the result and reason, easy-fill winning for the non-moving
side and gamelength drawing. -/
theorem adjudication_priority_order (ctx : DriverCtx Pos Move) (sp : Pos)
    (script : List EngineEvent) (st : LoopState Pos Move) (last : String)
    (hgo : ctx.M.is_gameover st.pos = false) :
    (material_fires ctx st.pos = true →
      playLoop ctx sp script st last =
        some (mkExit ctx sp st (make_win_for (ctx.M.get_turn st.pos))
          ResultReason.MaterialImbalance last [])) ∧
    (material_fires ctx st.pos = false → easyfill_fires ctx st.pos = true →
      playLoop ctx sp script st last =
        some (mkExit ctx sp st (make_win_for (ctx.M.get_turn st.pos).flip)
          ResultReason.EasyFill last [])) ∧
    (material_fires ctx st.pos = false → easyfill_fires ctx st.pos = false →
      gamelength_fires ctx st.pos = true →
      playLoop ctx sp script st last =
        some (mkExit ctx sp st Result.Draw ResultReason.Gamelength last [])) := by
  refine ⟨fun hm => ?_, fun hm he => ?_, fun hm he hg => ?_⟩
  · apply playLoop_precheck_halt
    unfold preCheck
    simp [hgo, hm]
  · apply playLoop_precheck_halt
    unfold preCheck
    simp [hgo, hm, he]
  · apply playLoop_precheck_halt
    unfold preCheck
    simp [hgo, hm, he, hg]

/-- Witness for C6: the three priority cases of the theorem at the
concrete contexts over `adjModel`, where every armed rule fires. -/
theorem adjudication_priority_order_witness :
    (playLoop ctxAdjAll 0 [] adjSt0 "" =
      some (mkExit ctxAdjAll 0 adjSt0 (make_win_for (ctxAdjAll.M.get_turn adjSt0.pos))
        ResultReason.MaterialImbalance "" [])) ∧
    (playLoop ctxAdjEasy 0 [] adjSt0 "" =
      some (mkExit ctxAdjEasy 0 adjSt0 (make_win_for (ctxAdjEasy.M.get_turn adjSt0.pos).flip)
        ResultReason.EasyFill "" [])) ∧
    (playLoop ctxAdjLen 0 [] adjSt0 "" =
      some (mkExit ctxAdjLen 0 adjSt0 Result.Draw ResultReason.Gamelength "" [])) :=
  ⟨(adjudication_priority_order ctxAdjAll 0 [] adjSt0 "" (by decide)).1 (by decide),
   (adjudication_priority_order ctxAdjEasy 0 [] adjSt0 "" (by decide)).2.1
     (by decide) (by decide),
   (adjudication_priority_order ctxAdjLen 0 [] adjSt0 "" (by decide)).2.2
     (by decide) (by decide) (by decide)⟩

/-- An unparseable or illegal reply ends the loop with an illegal-move loss
for the side to move, whatever the time-control mode and the elapsed
time. -/
lemma playLoop_illegal_reply (ctx : DriverCtx Pos Move) (sp : Pos)
    (rest : List EngineEvent) (st : LoopState Pos Move) (last ms : String) (e : Int)
    (hgo : ctx.M.is_gameover st.pos = false)
    (hm : material_fires ctx st.pos = false)
    (he : easyfill_fires ctx st.pos = false)
    (hg : gamelength_fires ctx st.pos = false)
    (hbad : ctx.M.parse_move ms = none ∨
      ∃ mv, ctx.M.parse_move ms = some mv ∧ ctx.M.is_legal_move st.pos mv = false) :
    playLoop ctx sp (EngineEvent.reply ms e :: rest) st last =
      some (mkExit ctx sp st (make_win_for (ctx.M.get_turn st.pos).flip)
        ResultReason.IllegalMove ms
        [illegal_move_line ms (engine_name_of ctx (ctx.M.get_turn st.pos))]) := by
  have hpc : preCheck ctx st.pos = none := by
    unfold preCheck
    simp [hgo, hm, he, hg]
  rw [playLoop, hpc]
  rcases hbad with hp | ⟨mv, hp, hleg⟩
  · unfold playIter
    rw [hp]
  · unfold playIter
    rw [hp]
    simp [hleg]

/-- C2 (amended): in Movetime mode a reply that is both late and illegal
(fails parsing or the legality check) is recorded as an illegal-move loss,
not an out-of-time one: the legality check of the source runs before the
movetime check, which is then never reached. -/
theorem late_illegal_reply_is_illegal_move (ctx : DriverCtx Pos Move) (sp : Pos)
    (rest : List EngineEvent) (st : LoopState Pos Move) (last ms : String) (e : Int)
    (hgo : ctx.M.is_gameover st.pos = false)
    (hm : material_fires ctx st.pos = false)
    (he : easyfill_fires ctx st.pos = false)
    (hg : gamelength_fires ctx st.pos = false)
    (_hmode : ctx.tc.stype = SearchType.Movetime)
    (_hlate : e > ctx.tc.movetime + ctx.adjudication.timeout_buffer)
    (hbad : ctx.M.parse_move ms = none ∨
      ∃ mv, ctx.M.parse_move ms = some mv ∧ ctx.M.is_legal_move st.pos mv = false) :
    playLoop ctx sp (EngineEvent.reply ms e :: rest) st last =
      some (mkExit ctx sp st (make_win_for (ctx.M.get_turn st.pos).flip)
        ResultReason.IllegalMove ms
        [illegal_move_line ms (engine_name_of ctx (ctx.M.get_turn st.pos))]) :=
  playLoop_illegal_reply ctx sp rest st last ms e hgo hm he hg hbad

/-- Witness for C2: the amended theorem at `ctxMT50` with the unparseable
token "xyz" arriving after 200 ms against a 100 ms budget and 50 ms
buffer. -/
theorem late_illegal_reply_is_illegal_move_witness :
    playLoop ctxMT50 0 [EngineEvent.reply "xyz" 200] adjSt0 "" =
      some (mkExit ctxMT50 0 adjSt0 (make_win_for (ctxMT50.M.get_turn adjSt0.pos).flip)
        ResultReason.IllegalMove "xyz"
        [illegal_move_line "xyz" (engine_name_of ctxMT50 (ctxMT50.M.get_turn adjSt0.pos))]) :=
  late_illegal_reply_is_illegal_move ctxMT50 0 [] adjSt0 "" "xyz" 200
    (by decide) (by decide) (by decide) (by decide) (by decide) (by decide)
    (Or.inl (by decide))

/-- Counterexample for C2 as stated: the late unparseable token "xyz" in
Movetime mode yields reason IllegalMove, not OutOfTime. -/
theorem late_illegal_reply_outoftime_counterexample :
    ctxMT50.tc.stype = SearchType.Movetime ∧
    ctxMT50.M.parse_move "xyz" = none ∧
    (200 : Int) > ctxMT50.tc.movetime + ctxMT50.adjudication.timeout_buffer ∧
    (play ctxMT50 0 true [EngineEvent.reply "xyz" 200]).map (fun g => g.reason) =
      some ResultReason.IllegalMove ∧
    ¬ (play ctxMT50 0 true [EngineEvent.reply "xyz" 200]).map (fun g => g.reason) =
      some ResultReason.OutOfTime :=
  ⟨rfl, by decide, by decide, by decide, by decide⟩

/-- C7: an unparseable or illegal first reply from the engine to move
(Black here) ends the game at once: a White win with reason IllegalMove, an
empty history and ply count 0, the end position still the start position, a
single printed line naming the Black engine and the offending token, and an
`Adjudicated: Illegal move token` PGN header. -/
theorem first_illegal_move_outcome (ctx : DriverCtx Pos Move) (sp : Pos)
    (rest : List EngineEvent) (ms : String) (e : Int)
    (hgo : ctx.M.is_gameover sp = false)
    (hm : material_fires ctx sp = false)
    (he : easyfill_fires ctx sp = false)
    (hg : gamelength_fires ctx sp = false)
    (hturn : ctx.M.get_turn sp = Side.Black)
    (hbad : ctx.M.parse_move ms = none ∨
      ∃ mv, ctx.M.parse_move ms = some mv ∧ ctx.M.is_legal_move sp mv = false) :
    play ctx sp true (EngineEvent.reply ms e :: rest) =
      some { result := Result.WhiteWin, reason := ResultReason.IllegalMove,
             startpos := sp, endpos := sp, history := [], ply_count := 0,
             last_movestr := ms,
             printed := [illegal_move_line ms ctx.engine1_name] } ∧
    adjudicated_header ResultReason.IllegalMove ms = some ("Illegal move " ++ ms) := by
  refine ⟨?_, rfl⟩
  show playLoop ctx sp (EngineEvent.reply ms e :: rest)
      { pos := sp, btime := ctx.tc.btime, wtime := ctx.tc.wtime, ply_count := 0,
        history := [] } "" = _
  rw [playLoop_illegal_reply ctx sp rest _ "" ms e hgo hm he hg hbad]
  simp [mkExit, hturn, make_win_for, Side.flip, engine_name_of]

/-- Witness for C7: the theorem at `ctxMT50` with Black to move emitting
the unparseable token "xyz". -/
theorem first_illegal_move_outcome_witness :
    play ctxMT50 0 true [EngineEvent.reply "xyz" 200] =
      some { result := Result.WhiteWin, reason := ResultReason.IllegalMove,
             startpos := 0, endpos := 0, history := [], ply_count := 0,
             last_movestr := "xyz",
             printed := [illegal_move_line "xyz" ctxMT50.engine1_name] } ∧
    adjudicated_header ResultReason.IllegalMove "xyz" = some ("Illegal move " ++ "xyz") :=
  first_illegal_move_outcome ctxMT50 0 [] "xyz" 200
    (by decide) (by decide) (by decide) (by decide) (by decide) (Or.inl (by decide))

/-- C4: in Movetime mode, after a legally parsed and legal reply the driver
compares the elapsed time against `movetime + timeout_buffer`: a strict
overrun ends the game as an out-of-time loss for the side that just moved
(the move still entering the history), and otherwise the game goes on from
the position after the move. -/
theorem movetime_overrun_check (ctx : DriverCtx Pos Move) (sp : Pos)
    (rest : List EngineEvent) (st : LoopState Pos Move) (last ms : String) (e : Int)
    (mv : Move)
    (hgo : ctx.M.is_gameover st.pos = false)
    (hm : material_fires ctx st.pos = false)
    (he : easyfill_fires ctx st.pos = false)
    (hg : gamelength_fires ctx st.pos = false)
    (hparse : ctx.M.parse_move ms = some mv)
    (hlegal : ctx.M.is_legal_move st.pos mv = true)
    (hmode : ctx.tc.stype = SearchType.Movetime) :
    (e > ctx.tc.movetime + ctx.adjudication.timeout_buffer →
      playLoop ctx sp (EngineEvent.reply ms e :: rest) st last =
        some (mkExit ctx sp
          { st with ply_count := st.ply_count + 1, history := st.history ++ [(mv, e)] }
          (make_win_for (ctx.M.get_turn st.pos).flip) ResultReason.OutOfTime ms [])) ∧
    (¬ e > ctx.tc.movetime + ctx.adjudication.timeout_buffer →
      playLoop ctx sp (EngineEvent.reply ms e :: rest) st last =
        playLoop ctx sp rest
          { st with
            pos := ctx.M.makemove st.pos mv
            ply_count := st.ply_count + 1
            history := st.history ++ [(mv, e)] } ms) := by
  have hpc : preCheck ctx st.pos = none := by
    unfold preCheck
    simp [hgo, hm, he, hg]
  constructor <;> intro hlate
  · rw [playLoop, hpc]
    unfold playIter
    rw [hparse]
    simp [hlegal, subtract_elapsed, hmode, hlate]
  · rw [playLoop, hpc]
    unfold playIter
    rw [hparse]
    simp [hlegal, subtract_elapsed, add_increment, hmode, hlate]

/-- Witness for C4: the theorem at movetime 100. With buffer 50 a legal
reply after 200 ms is an out-of-time White win; with buffer 200 the same
reply lets the game continue. -/
theorem movetime_overrun_check_witness :
    (playLoop ctxMT50 0 [EngineEvent.reply "a1" 200] adjSt0 "" =
      some (mkExit ctxMT50 0
        { adjSt0 with
          ply_count := adjSt0.ply_count + 1
          history := adjSt0.history ++ [(((), 200) : Unit × Int)] }
        (make_win_for (ctxMT50.M.get_turn adjSt0.pos).flip) ResultReason.OutOfTime "a1" [])) ∧
    (playLoop ctxMT200 0 [EngineEvent.reply "a1" 200] adjSt0 "" =
      playLoop ctxMT200 0 []
        { adjSt0 with
          pos := ctxMT200.M.makemove adjSt0.pos ()
          ply_count := adjSt0.ply_count + 1
          history := adjSt0.history ++ [(((), 200) : Unit × Int)] } "a1") :=
  ⟨(movetime_overrun_check ctxMT50 0 [] adjSt0 "" "a1" 200 ()
      (by decide) (by decide) (by decide) (by decide) (by decide) (by decide) rfl).1
      (by decide),
   (movetime_overrun_check ctxMT200 0 [] adjSt0 "" "a1" 200 ()
      (by decide) (by decide) (by decide) (by decide) (by decide) (by decide) rfl).2
      (by decide)⟩

/-- C5: in Time mode, after a legal reply by Black the driver first
subtracts the elapsed milliseconds from btime; if the remainder is ≤ 0 the
game ends at once as a White win on time (no increment, no makemove), and
only if the game is still live is the increment added before play goes on.
The clock starts from the configured btime/wtime, so three Black moves of
400, 400 and 300 ms against btime = 1000 with no increment end as
WhiteWin / OutOfTime on the fifth ply. -/
theorem time_mode_clock_update (ctx : DriverCtx Pos Move) (sp : Pos)
    (rest : List EngineEvent) (st : LoopState Pos Move) (last ms : String) (e : Int)
    (mv : Move)
    (hgo : ctx.M.is_gameover st.pos = false)
    (hm : material_fires ctx st.pos = false)
    (he : easyfill_fires ctx st.pos = false)
    (hg : gamelength_fires ctx st.pos = false)
    (hparse : ctx.M.parse_move ms = some mv)
    (hlegal : ctx.M.is_legal_move st.pos mv = true)
    (hmode : ctx.tc.stype = SearchType.Time) :
    (ctx.M.get_turn st.pos = Side.Black →
      (st.btime - e ≤ 0 →
        playLoop ctx sp (EngineEvent.reply ms e :: rest) st last =
          some (mkExit ctx sp
            { st with
              btime := st.btime - e
              ply_count := st.ply_count + 1
              history := st.history ++ [(mv, e)] }
            Result.WhiteWin ResultReason.OutOfTime ms [])) ∧
      (0 < st.btime - e → 0 < st.wtime →
        playLoop ctx sp (EngineEvent.reply ms e :: rest) st last =
          playLoop ctx sp rest
            { st with
              pos := ctx.M.makemove st.pos mv
              btime := st.btime - e + ctx.tc.binc
              ply_count := st.ply_count + 1
              history := st.history ++ [(mv, e)] } ms)) ∧
    (ctx.M.get_turn st.pos = Side.White →
      (0 < st.btime → st.wtime - e ≤ 0 →
        playLoop ctx sp (EngineEvent.reply ms e :: rest) st last =
          some (mkExit ctx sp
            { st with
              wtime := st.wtime - e
              ply_count := st.ply_count + 1
              history := st.history ++ [(mv, e)] }
            Result.BlackWin ResultReason.OutOfTime ms [])) ∧
      (0 < st.btime → 0 < st.wtime - e →
        playLoop ctx sp (EngineEvent.reply ms e :: rest) st last =
          playLoop ctx sp rest
            { st with
              pos := ctx.M.makemove st.pos mv
              wtime := st.wtime - e + ctx.tc.winc
              ply_count := st.ply_count + 1
              history := st.history ++ [(mv, e)] } ms)) ∧
    (play ctxTime 0 true blackFlagScript).map (fun g => (g.result, g.reason, g.ply_count)) =
      some (Result.WhiteWin, ResultReason.OutOfTime, 5) := by
  have hpc : preCheck ctx st.pos = none := by
    unfold preCheck
    simp [hgo, hm, he, hg]
  refine ⟨fun hturn => ⟨fun hflag => ?_, fun hb hw => ?_⟩,
    fun hturn => ⟨fun hb hflag => ?_, fun hb hw => ?_⟩, by decide⟩
  · rw [playLoop, hpc]
    unfold playIter
    rw [hparse]
    simp [hlegal, subtract_elapsed, hmode, hturn, hflag]
  · rw [playLoop, hpc]
    unfold playIter
    rw [hparse]
    simp [hlegal, subtract_elapsed, add_increment, hmode, hturn]
    rw [if_neg (by omega), if_neg (by omega)]
  · rw [playLoop, hpc]
    unfold playIter
    rw [hparse]
    simp [hlegal, subtract_elapsed, hmode, hturn]
    rw [if_neg (by omega), if_pos (by omega)]
  · rw [playLoop, hpc]
    unfold playIter
    rw [hparse]
    simp [hlegal, subtract_elapsed, add_increment, hmode, hturn]
    rw [if_neg (by omega), if_neg (by omega)]

/-- Witness for C5: the theorem with Black to move on btime 600 and a
reply taking 700 ms (flag falls), and on btime 600 with a 100 ms reply
(game continues with the increment applied). -/
theorem time_mode_clock_update_witness :
    (playLoop ctxTime 0 [EngineEvent.reply "a1" 700]
        { pos := 0, btime := 600, wtime := 1000, ply_count := 0, history := [] } "" =
      some (mkExit ctxTime 0
        { pos := 0, btime := 600 - 700, wtime := 1000, ply_count := 1
          history := [(((), 700) : Unit × Int)] }
        Result.WhiteWin ResultReason.OutOfTime "a1" [])) ∧
    (play ctxTime 0 true blackFlagScript).map (fun g => (g.result, g.reason, g.ply_count)) =
      some (Result.WhiteWin, ResultReason.OutOfTime, 5) := by
  have h := time_mode_clock_update ctxTime 0 []
    { pos := 0, btime := 600, wtime := 1000, ply_count := 0, history := [] } "" "a1" 700 ()
    (by decide) (by decide) (by decide) (by decide) (by decide) (by decide) rfl
  exact ⟨(h.1 (by decide)).1 (by decide), h.2.2⟩

/-- For the 2-player, 2-game, 2-opening repeat construction the n-th
generated entry depends only on the parity of n. -/
lemma rr_next_two_players (n : Nat) :
    rr_next 2 2 2 true n =
      if n % 2 = 0 then
        { game_id := n, opening_id := 0, player1_idx := 0, player2_idx := 1 }
      else
        { game_id := n, opening_id := 0, player1_idx := 1, player2_idx := 0 } := by
  have he : rr_expected 2 2 2 true = 2 := rfl
  unfold rr_next
  rw [he]
  rcases Nat.mod_two_eq_zero_or_one n with h | h <;> rw [h] <;> simp <;> decide

/-- C8: for the round-robin generator with 2 players, 2 games, 2 openings
and repeat on, one cycle is 2 games long; the first six generated entries
are exactly the claimed ones, and in general every even call is
`(n, 0, 0, 1)` immediately followed by the colour-swapped `(n+1, 0, 1, 0)`
with the same opening, with game_id the never-reset monotone counter. -/
theorem roundrobin_2p_2g_2o_repeat :
    rr_expected 2 2 2 true = 2 ∧
    rr_next 2 2 2 true 0 = { game_id := 0, opening_id := 0, player1_idx := 0, player2_idx := 1 } ∧
    rr_next 2 2 2 true 1 = { game_id := 1, opening_id := 0, player1_idx := 1, player2_idx := 0 } ∧
    rr_next 2 2 2 true 2 = { game_id := 2, opening_id := 0, player1_idx := 0, player2_idx := 1 } ∧
    rr_next 2 2 2 true 3 = { game_id := 3, opening_id := 0, player1_idx := 1, player2_idx := 0 } ∧
    rr_next 2 2 2 true 4 = { game_id := 4, opening_id := 0, player1_idx := 0, player2_idx := 1 } ∧
    rr_next 2 2 2 true 5 = { game_id := 5, opening_id := 0, player1_idx := 1, player2_idx := 0 } ∧
    ∀ k : Nat,
      rr_next 2 2 2 true (2 * k) =
        { game_id := 2 * k, opening_id := 0, player1_idx := 0, player2_idx := 1 } ∧
      rr_next 2 2 2 true (2 * k + 1) =
        { game_id := 2 * k + 1, opening_id := 0, player1_idx := 1, player2_idx := 0 } := by
  refine ⟨rfl, by decide, by decide, by decide, by decide, by decide, by decide,
    fun k => ⟨?_, ?_⟩⟩
  · rw [rr_next_two_players]
    simp [Nat.mul_mod_right]
  · rw [rr_next_two_players]
    have h1 : (2 * k + 1) % 2 = 1 := by omega
    simp [h1]

/-! ### The loop invariant behind claims C3, C9 and C10 -/

/-- The facts every returned outcome satisfies: the start position is the
one the driver was given; ply count and history length agree; the reason
`Normal` is never produced (a game that ends on the board keeps the initial
reason `None`, with the result read off the final position); and the end
position replays the whole history except that an out-of-time loss leaves
the final recorded move unapplied. -/
def DriverInv (ctx : DriverCtx Pos Move) (sp : Pos) (g : GameThingy Pos Move) : Prop :=
  g.startpos = sp ∧
  g.ply_count = g.history.length ∧
  g.reason ≠ ResultReason.Normal ∧
  (g.reason = ResultReason.None →
    g.result = ctx.M.get_result g.endpos ∧ ctx.M.is_gameover g.endpos = true) ∧
  (g.reason = ResultReason.OutOfTime →
    g.endpos = applyMoves ctx.M sp g.history.dropLast ∧ g.history ≠ []) ∧
  (g.reason ≠ ResultReason.OutOfTime → g.endpos = applyMoves ctx.M sp g.history)

/-- What `preCheck` can report: never `Normal`, never `OutOfTime`, and the
`None` exit happens exactly on a game-over board with the result left to be
read from the position. -/
lemma preCheck_spec {ctx : DriverCtx Pos Move} {pos : Pos} {p : Result × ResultReason}
    (h : preCheck ctx pos = some p) :
    p.2 ≠ ResultReason.Normal ∧ p.2 ≠ ResultReason.OutOfTime ∧
      (p.2 = ResultReason.None → p.1 = Result.None ∧ ctx.M.is_gameover pos = true) := by
  unfold preCheck at h
  split at h
  next hgo =>
    cases h
    exact ⟨by simp, by simp, fun _ => ⟨rfl, hgo⟩⟩
  next hgo =>
    split at h
    next =>
      cases h
      exact ⟨by simp, by simp, fun hx => by simp at hx⟩
    next =>
      split at h
      next =>
        cases h
        exact ⟨by simp, by simp, fun hx => by simp at hx⟩
      next =>
        split at h
        next =>
          cases h
          exact ⟨by simp, by simp, fun hx => by simp at hx⟩
        next => cases h

/-- A halt from `playIter` either leaves the state untouched (the
illegal-move break, before the history is extended) or is an out-of-time
break with the move appended to the history and the ply count bumped; in
both cases the board position is unchanged. -/
lemma playIter_halt_spec {ctx : DriverCtx Pos Move} {st st' : LoopState Pos Move}
    {ms : String} {e : Int} {r : Result} {rsn : ResultReason} {pr : List String}
    (h : playIter ctx st ms e = .halt r rsn st' pr) :
    st'.pos = st.pos ∧
      ((rsn = ResultReason.IllegalMove ∧ st' = st) ∨
       (rsn = ResultReason.OutOfTime ∧ ∃ mv,
         st'.history = st.history ++ [(mv, e)] ∧ st'.ply_count = st.ply_count + 1)) := by
  unfold playIter at h
  rcases hp : ctx.M.parse_move ms with _ | mv <;> rw [hp] at h <;> dsimp only at h
  · cases h
    exact ⟨rfl, Or.inl ⟨rfl, rfl⟩⟩
  · by_cases hleg : ctx.M.is_legal_move st.pos mv = false
    · rw [if_pos hleg] at h
      cases h
      exact ⟨rfl, Or.inl ⟨rfl, rfl⟩⟩
    · rw [if_neg hleg] at h
      split at h
      · cases h
        exact ⟨by simp, Or.inr ⟨rfl, mv, by simp, by simp⟩⟩
      · split at h
        · cases h
          exact ⟨by simp, Or.inr ⟨rfl, mv, by simp, by simp⟩⟩
        · split at h
          · cases h
            exact ⟨by simp, Or.inr ⟨rfl, mv, by simp, by simp⟩⟩
          · cases h

/-- A continuation from `playIter` carries the parsed move: it is appended
to the history, the ply count is bumped, and the board advances by exactly
that move. -/
lemma playIter_cont_spec {ctx : DriverCtx Pos Move} {st st' : LoopState Pos Move}
    {ms : String} {e : Int}
    (h : playIter ctx st ms e = .cont st') :
    ∃ mv, ctx.M.parse_move ms = some mv ∧ st'.pos = ctx.M.makemove st.pos mv ∧
      st'.history = st.history ++ [(mv, e)] ∧ st'.ply_count = st.ply_count + 1 := by
  unfold playIter at h
  rcases hp : ctx.M.parse_move ms with _ | mv <;> rw [hp] at h <;> dsimp only at h
  · cases h
  · by_cases hleg : ctx.M.is_legal_move st.pos mv = false
    · rw [if_pos hleg] at h
      cases h
    · rw [if_neg hleg] at h
      split at h
      · cases h
      · split at h
        · cases h
        · split at h
          · cases h
          · cases h
            exact ⟨mv, rfl, by simp, by simp, by simp⟩

/-- Replaying an extended history is one more `makemove`. -/
lemma applyMoves_append (M : GameModel Pos Move) (p : Pos) (l : List (Move × Int))
    (mv : Move) (i : Int) :
    applyMoves M p (l ++ [(mv, i)]) = M.makemove (applyMoves M p l) mv := by
  induction l generalizing p with
  | nil => rfl
  | cons hd tl ih =>
      cases hd
      rw [List.cons_append]
      unfold applyMoves
      exact ih _

/-- `DriverInv` holds at any exit whose state is untouched since the loop
head, provided the reason is neither `Normal` nor `OutOfTime` and a `None`
reason only reports a game-over board. -/
lemma halt_inv (ctx : DriverCtx Pos Move) (sp : Pos) (st : LoopState Pos Move)
    (r : Result) (rsn : ResultReason) (last : String) (pr : List String)
    (hpos : st.pos = applyMoves ctx.M sp st.history)
    (hply : st.ply_count = st.history.length)
    (hnormal : rsn ≠ ResultReason.Normal)
    (hoot : rsn ≠ ResultReason.OutOfTime)
    (hnone : rsn = ResultReason.None → r = Result.None ∧ ctx.M.is_gameover st.pos = true) :
    DriverInv ctx sp (mkExit ctx sp st r rsn last pr) := by
  unfold DriverInv mkExit
  refine ⟨rfl, hply, hnormal, fun hn => ?_, fun hx => absurd hx hoot, fun _ => hpos⟩
  obtain ⟨hr, hgo⟩ := hnone hn
  subst hr
  exact ⟨by simp, hgo⟩

/-- The loop preserves `DriverInv`: any outcome the loop returns from a
state whose position replays its history and whose ply count matches its
history length satisfies the invariant. -/
lemma playLoop_spec (ctx : DriverCtx Pos Move) (sp : Pos) :
    ∀ (script : List EngineEvent) (st : LoopState Pos Move) (last : String)
      (g : GameThingy Pos Move),
      st.pos = applyMoves ctx.M sp st.history →
      st.ply_count = st.history.length →
      playLoop ctx sp script st last = some g →
      DriverInv ctx sp g := by
  intro script
  induction script with
  | nil =>
      intro st last g hpos hply h
      rw [playLoop] at h
      cases hpc : preCheck ctx st.pos with
      | none => rw [hpc] at h; cases h
      | some p =>
          obtain ⟨r, rsn⟩ := p
          rw [hpc] at h
          cases h
          have hs := preCheck_spec hpc
          exact halt_inv ctx sp st r rsn last [] hpos hply hs.1 hs.2.1 hs.2.2
  | cons ev rest ih =>
      intro st last g hpos hply h
      cases ev with
      | crash =>
          rw [playLoop] at h
          cases hpc : preCheck ctx st.pos with
          | some p =>
              obtain ⟨r, rsn⟩ := p
              rw [hpc] at h
              cases h
              have hs := preCheck_spec hpc
              exact halt_inv ctx sp st r rsn last [] hpos hply hs.1 hs.2.1 hs.2.2
          | none =>
              rw [hpc] at h
              cases h
              exact halt_inv ctx sp st _ ResultReason.EngineCrash last [] hpos hply
                (by decide) (by decide) (fun hx => absurd hx (by decide))
      | reply ms e =>
          rw [playLoop] at h
          cases hpc : preCheck ctx st.pos with
          | some p =>
              obtain ⟨r, rsn⟩ := p
              rw [hpc] at h
              cases h
              have hs := preCheck_spec hpc
              exact halt_inv ctx sp st r rsn ms [] hpos hply hs.1 hs.2.1 hs.2.2
          | none =>
              rw [hpc] at h
              cases hit : playIter ctx st ms e with
              | halt r rsn st' pr =>
                  rw [hit] at h
                  cases h
                  obtain ⟨hpos', hcase⟩ := playIter_halt_spec hit
                  rcases hcase with ⟨hr, hst⟩ | ⟨hr, mv, hh, hpl⟩
                  · subst hr
                    rw [hst]
                    exact halt_inv ctx sp _ _ ResultReason.IllegalMove ms pr hpos hply
                      (by decide) (by decide) (fun hx => absurd hx (by decide))
                  · subst hr
                    unfold DriverInv mkExit
                    refine ⟨rfl, ?_, by simp, fun hx => by simp at hx,
                      fun _ => ⟨?_, ?_⟩, fun hx => absurd rfl hx⟩
                    · rw [hpl, hh, hply]
                      simp
                    · rw [hh, List.dropLast_concat, hpos', hpos]
                    · rw [hh]
                      simp
              | cont st' =>
                  rw [hit] at h
                  obtain ⟨mv, _hpm, hpos', hh, hpl⟩ := playIter_cont_spec hit
                  refine ih st' ms g ?_ ?_ h
                  · rw [hpos', hh, applyMoves_append, hpos]
                  · rw [hpl, hh, hply]
                    simp

/-- Every outcome `play` returns satisfies `DriverInv`, the handshake-crash
path included. -/
lemma play_spec (ctx : DriverCtx Pos Move) (sp : Pos) (handshake_ok : Bool)
    (script : List EngineEvent) (g : GameThingy Pos Move)
    (h : play ctx sp handshake_ok script = some g) :
    DriverInv ctx sp g := by
  unfold play at h
  cases handshake_ok with
  | true =>
      rw [if_pos rfl] at h
      exact playLoop_spec ctx sp script _ "" g rfl rfl h
  | false =>
      rw [if_neg (by simp)] at h
      cases h
      exact halt_inv ctx sp _ _ ResultReason.EngineCrash "" [] rfl rfl
        (by decide) (by decide) (fun hx => absurd hx (by decide))

/-- C3 (amended): when the game ends without any adjudication, illegal
move, timeout or crash result, the returned result is read from the final
position with `pos.get_result()`, while the reason keeps its initial value
`None`: the value `Normal` is never assigned by the driver on any path
(like `Normal`, `None` produces no Adjudicated PGN header). -/
theorem gameover_exit_result_and_reason (ctx : DriverCtx Pos Move) (sp : Pos)
    (handshake_ok : Bool) (script : List EngineEvent) (g : GameThingy Pos Move)
    (h : play ctx sp handshake_ok script = some g) :
    g.reason ≠ ResultReason.Normal ∧
    (g.reason = ResultReason.None →
      g.result = ctx.M.get_result g.endpos ∧ ctx.M.is_gameover g.endpos = true ∧
      adjudicated_header g.reason g.last_movestr = none) := by
  obtain ⟨-, -, hn, hnone, -, -⟩ := play_spec ctx sp handshake_ok script g h
  refine ⟨hn, fun hx => ⟨(hnone hx).1, (hnone hx).2, ?_⟩⟩
  rw [hx]
  rfl

/-- Witness for C3: the amended theorem at `ctxC3`, whose start position is
already game over with a Black win on the board. -/
theorem gameover_exit_result_and_reason_witness :
    ((play ctxC3 0 true []).getD dummyThingy).reason ≠ ResultReason.Normal ∧
    (((play ctxC3 0 true []).getD dummyThingy).reason = ResultReason.None →
      ((play ctxC3 0 true []).getD dummyThingy).result =
        ctxC3.M.get_result ((play ctxC3 0 true []).getD dummyThingy).endpos ∧
      ctxC3.M.is_gameover ((play ctxC3 0 true []).getD dummyThingy).endpos = true ∧
      adjudicated_header ((play ctxC3 0 true []).getD dummyThingy).reason
        ((play ctxC3 0 true []).getD dummyThingy).last_movestr = none) :=
  gameover_exit_result_and_reason ctxC3 0 true [] _ rfl

/-- Counterexample for C3 as stated: over `ctxC3` the game ends on the
board at once, the result is taken from the position, but the recorded
reason is `None`, not `Normal`. -/
theorem gameover_exit_reason_normal_counterexample :
    ctxC3.M.is_gameover 0 = true ∧
    (play ctxC3 0 true []).map (fun g => (g.result, g.reason)) =
      some (Result.BlackWin, ResultReason.None) ∧
    ¬ (play ctxC3 0 true []).map (fun g => g.reason) = some ResultReason.Normal :=
  ⟨rfl, by decide, by decide⟩

/-- C9: for every outcome the driver returns, the ply count equals the
length of the recorded history. -/
theorem ply_count_matches_history (ctx : DriverCtx Pos Move) (sp : Pos)
    (handshake_ok : Bool) (script : List EngineEvent) (g : GameThingy Pos Move)
    (h : play ctx sp handshake_ok script = some g) :
    g.ply_count = g.history.length :=
  (play_spec ctx sp handshake_ok script g h).2.1

/-- Witness for C9: the invariant at a concrete one-move out-of-time
game. -/
theorem ply_count_matches_history_witness :
    ((play ctxMT50 0 true [EngineEvent.reply "a1" 200]).getD dummyThingy).ply_count =
      ((play ctxMT50 0 true [EngineEvent.reply "a1" 200]).getD dummyThingy).history.length :=
  ply_count_matches_history ctxMT50 0 true [EngineEvent.reply "a1" 200] _ rfl

/-- C10: a game lost on time records the timing-out move in the history and
the ply count, but never applies it to the board: the end position replays
only the first `ply_count - 1` recorded moves; a game that ends on the
board (reason `Normal` in the claim, recorded as the initial `None` by the
driver) has an end position replaying the whole history. -/
theorem endpos_reflects_history (ctx : DriverCtx Pos Move) (sp : Pos)
    (handshake_ok : Bool) (script : List EngineEvent) (g : GameThingy Pos Move)
    (h : play ctx sp handshake_ok script = some g) :
    (g.reason = ResultReason.OutOfTime →
      g.endpos = applyMoves ctx.M g.startpos g.history.dropLast ∧
      g.history ≠ [] ∧ g.ply_count = g.history.length) ∧
    ((g.reason = ResultReason.Normal ∨ g.reason = ResultReason.None) →
      g.endpos = applyMoves ctx.M g.startpos g.history) := by
  obtain ⟨hsp, hply, -, -, hoot, hrest⟩ := play_spec ctx sp handshake_ok script g h
  subst hsp
  refine ⟨fun h1 => ⟨(hoot h1).1, (hoot h1).2, hply⟩, fun h2 => hrest ?_⟩
  rcases h2 with h2 | h2 <;> rw [h2] <;> decide

/-- Witness for C10: the theorem at the time-control exhaustion game, where
Black flags on the fifth recorded move and the end position replays only
the first four. -/
theorem endpos_reflects_history_witness :
    (((play ctxTime 0 true blackFlagScript).getD dummyThingy).reason =
        ResultReason.OutOfTime →
      ((play ctxTime 0 true blackFlagScript).getD dummyThingy).endpos =
        applyMoves ctxTime.M ((play ctxTime 0 true blackFlagScript).getD dummyThingy).startpos
          ((play ctxTime 0 true blackFlagScript).getD dummyThingy).history.dropLast ∧
      ((play ctxTime 0 true blackFlagScript).getD dummyThingy).history ≠ [] ∧
      ((play ctxTime 0 true blackFlagScript).getD dummyThingy).ply_count =
        ((play ctxTime 0 true blackFlagScript).getD dummyThingy).history.length) ∧
    ((((play ctxTime 0 true blackFlagScript).getD dummyThingy).reason =
          ResultReason.Normal ∨
        ((play ctxTime 0 true blackFlagScript).getD dummyThingy).reason =
          ResultReason.None) →
      ((play ctxTime 0 true blackFlagScript).getD dummyThingy).endpos =
        applyMoves ctxTime.M ((play ctxTime 0 true blackFlagScript).getD dummyThingy).startpos
          ((play ctxTime 0 true blackFlagScript).getD dummyThingy).history) :=
  endpos_reflects_history ctxTime 0 true blackFlagScript _ rfl

end Cuteataxx
